import Mathlib

/-!
Verification of the data-windowing / rendering core of a hex-viewer widget
(libqthexed.py): a shallow embedding of the DataView byte-source class, the
viewport offset clamping of QHexEditor.jump, the frame construction loop, and
the selection-synchronization key computation of QHexEditor.sel_changed.

Python byte strings are modelled as List Nat (each element a byte value),
Python ints as Int where negative values occur (offsets), file contents as an
explicit map from filenames to byte lists, and exceptions as Except String.
-/

namespace LibQtHexEd

/-- Embeds the module constant NONPRINTABLE = (0, 7, 8, 9, 10, 13). -/
def NONPRINTABLE : List Nat := [0, 7, 8, 9, 10, 13]

/-- The uppercase hexadecimal digits, as used by the format string %02X. -/
def HEXDIGITS : List Char :=
  ['0', '1', '2', '3', '4', '5', '6', '7', '8', '9', 'A', 'B', 'C', 'D', 'E', 'F']

/-- Embeds the Python expression ('%02X' % c) for a byte value c < 256:
two uppercase hexadecimal digits. -/
def hex2 (c : Nat) : String :=
  String.mk [HEXDIGITS.getD (c / 16) 'X', HEXDIGITS.getD (c % 16) 'X']

/-- Unicode code points of code page 437 for byte values 0x80 to 0xFF
(the classic DOS/OEM table used by Python codec cp437). -/
def cp437Hi : List Nat :=
  [0x00C7, 0x00FC, 0x00E9, 0x00E2, 0x00E4, 0x00E0, 0x00E5, 0x00E7,
   0x00EA, 0x00EB, 0x00E8, 0x00EF, 0x00EE, 0x00EC, 0x00C4, 0x00C5,
   0x00C9, 0x00E6, 0x00C6, 0x00F4, 0x00F6, 0x00F2, 0x00FB, 0x00F9,
   0x00FF, 0x00D6, 0x00DC, 0x00A2, 0x00A3, 0x00A5, 0x20A7, 0x0192,
   0x00E1, 0x00ED, 0x00F3, 0x00FA, 0x00F1, 0x00D1, 0x00AA, 0x00BA,
   0x00BF, 0x2310, 0x00AC, 0x00BD, 0x00BC, 0x00A1, 0x00AB, 0x00BB,
   0x2591, 0x2592, 0x2593, 0x2502, 0x2524, 0x2561, 0x2562, 0x2556,
   0x2555, 0x2563, 0x2551, 0x2557, 0x255D, 0x255C, 0x255B, 0x2510,
   0x2514, 0x2534, 0x252C, 0x251C, 0x2500, 0x253C, 0x255E, 0x255F,
   0x255A, 0x2554, 0x2569, 0x2566, 0x2560, 0x2550, 0x256C, 0x2567,
   0x2568, 0x2564, 0x2565, 0x2559, 0x2558, 0x2552, 0x2553, 0x256B,
   0x256A, 0x2518, 0x250C, 0x2588, 0x2584, 0x258C, 0x2590, 0x2580,
   0x03B1, 0x00DF, 0x0393, 0x03C0, 0x03A3, 0x03C3, 0x00B5, 0x03C4,
   0x03A6, 0x0398, 0x03A9, 0x03B4, 0x221E, 0x03C6, 0x03B5, 0x2229,
   0x2261, 0x00B1, 0x2265, 0x2264, 0x2320, 0x2321, 0x00F7, 0x2248,
   0x00B0, 0x2219, 0x00B7, 0x221A, 0x207F, 0x00B2, 0x25A0, 0x00A0]

/-- Code page 437 decode of one byte to a Unicode code point: bytes below
0x80 map to themselves, the rest through the table above. -/
def cp437 (b : Nat) : Nat :=
  if b < 128 then b else cp437Hi.getD (b - 128) 32

/-- Embeds bytes([32 if c in NONPRINTABLE else c]).decode('cp437'):
the one-glyph character text of a byte value. -/
def charTextOf (c : Nat) : String :=
  String.mk [Char.ofNat (cp437 (if NONPRINTABLE.contains c then 32 else c))]

/-- One populated grid cell of a built frame: the byte value, the hex-pane
item text and the text-pane item text (the two QStandardItems the jump loop
stores at (row, col) and (row, col + columns)). -/
structure Cell where
  byte : Nat
  hexText : String
  charText : String
deriving DecidableEq

/-- The cell the jump loop builds for byte value c. -/
def mkCell (c : Nat) : Cell :=
  { byte := c, hexText := hex2 c, charText := charTextOf c }

/-- Python slice l[a:b] for 0 <= a, b (clamping, never failing). -/
def pySlice (l : List Nat) (a b : Nat) : List Nat :=
  (l.take b).drop a

/-- One row of the frame: the inner loop of QHexEditor.jump over
col in range(columns), with idx = row * columns + col indexing into the
data window; a cell is built only when idx < len(data). -/
def buildRow (data : List Nat) (columns row : Nat) : List (Option Cell) :=
  (List.range columns).map fun col =>
    if row * columns + col < data.length
    then some (mkCell (data.getD (row * columns + col) 0)) else none

/-- The frame construction of QHexEditor.jump: slice the data window
self._data[offs : offs + rows * columns] and fill the rows * columns grid
(each populated logical cell yields both a hex item and a text item,
modelled as one Cell). -/
def buildFrame (source : List Nat) (offs rows columns : Nat) :
    List (List (Option Cell)) :=
  (List.range rows).map
    (buildRow (pySlice source offs (offs + rows * columns)) columns)

/-- A Python in-memory byte buffer together with its type: an immutable
bytes object or a mutable bytearray. Item assignment is only supported on
the latter. -/
inductive PyBuf where
  | bytes : List Nat → PyBuf
  | bytearray : List Nat → PyBuf
deriving DecidableEq

/-- The byte values held by a Python buffer. -/
def PyBuf.toList : PyBuf → List Nat
  | .bytes l => l
  | .bytearray l => l

/-- Python truthiness of the data argument: None and an empty buffer are
falsy, a non-empty buffer is truthy. -/
def truthyBytes (d : Option PyBuf) : Bool :=
  match d with
  | none => false
  | some (.bytes []) => false
  | some (.bytearray []) => false
  | some _ => true

/-- Python truthiness of the filename argument: None and the empty string
are falsy. -/
def truthyName (f : Option String) : Bool :=
  match f with
  | none => false
  | some s => !(s == "")

/-- The lazily resolved backing of DataView._data: a memory view (reading
the rawdata attribute) or a mapped file view holding the mapped bytes. -/
inductive Backing where
  | mem : Backing
  | mapped : List Nat → Backing
deriving DecidableEq

/-- The DataView object state: the constructor arguments as stored, the
lazily assigned _data cache, and whether the mm and fh attributes have been
assigned (they only are on the mapped-file path of the data property). -/
structure DataView where
  rawdata : Option PyBuf
  filename : Option String
  readonly : Bool
  dataCache : Option Backing
  hasMm : Bool
  hasFh : Bool
deriving DecidableEq

/-- DataView.__init__: raises ValueError when not (data or filename), that
is when both arguments are falsy under Python truthiness; otherwise stores
the arguments. The statement self.rawdata = data runs before the
conversion data = bytearray(data), which rebinds only the local variable,
so the mutable copy made for a writable bytes argument is discarded and
rawdata keeps the object the caller passed. -/
def DataView.init (data : Option PyBuf) (filename : Option String)
    (readonly : Bool) : Except String DataView :=
  if !(truthyBytes data || truthyName filename) then
    .error "ValueError: Raw data or a filename must be provided!"
  else
    .ok { rawdata := data, filename := filename, readonly := readonly,
          dataCache := none, hasMm := false, hasFh := false }

/-- The data property of DataView: returns the cache when set; otherwise,
when the filename is truthy, opens and memory-maps the file (assigning the
fh and mm attributes, the mapped bytes taken from the file-system map fs);
otherwise caches the rawdata attribute. Returns the updated object and the
resolved bytes. -/
def DataView.dataAccess (fs : String → List Nat) (dv : DataView) :
    DataView × List Nat :=
  match dv.dataCache with
  | some .mem => (dv, (dv.rawdata.getD (.bytes [])).toList)
  | some (.mapped bs) => (dv, bs)
  | none =>
    if truthyName dv.filename then
      let bs := fs (dv.filename.getD "")
      ({ dv with dataCache := some (.mapped bs), hasMm := true,
                 hasFh := true }, bs)
    else
      ({ dv with dataCache := some .mem },
       (dv.rawdata.getD (.bytes [])).toList)

/-- DataView.close: no-op when _data is None; otherwise calls
self.mm.close(), which raises AttributeError when the mm attribute was
never assigned (the memory-backed path of the data property does not
assign it), then clears the cache. -/
def DataView.close (dv : DataView) : Except String DataView :=
  match dv.dataCache with
  | none => .ok dv
  | some _ =>
    if dv.hasMm then .ok { dv with dataCache := none }
    else .error "AttributeError: DataView object has no attribute mm"

/-- DataView.__getitem__ with a slice argument item = [a:b]:
self.data[item] (resolving the data property first). -/
def DataView.getSlice (fs : String → List Nat) (dv : DataView)
    (a b : Nat) : DataView × List Nat :=
  let r := dv.dataAccess fs
  (r.1, pySlice r.2 a b)

/-- DataView.__setitem__: raises ValueError when the readonly flag is set,
otherwise executes self.data[i] = v on the resolved backing: a mapped view
or a bytearray accepts the assignment, while an immutable bytes rawdata
(what a writable open from bytes leaves behind, the bytearray copy having
been discarded) raises TypeError. -/
def DataView.setItem (fs : String → List Nat) (dv : DataView)
    (i v : Nat) : Except String DataView :=
  if dv.readonly then .error "ValueError: Readonly flag set!"
  else
    let r := dv.dataAccess fs
    match r.1.dataCache with
    | some (.mapped bs) =>
      .ok { r.1 with dataCache := some (.mapped (bs.set i v)) }
    | _ =>
      match r.1.rawdata with
      | some (.bytearray l) =>
        .ok { r.1 with rawdata := some (.bytearray (l.set i v)) }
      | _ =>
        .error "TypeError: bytes object does not support item assignment"

/-- The offset normalization of QHexEditor.jump:
self.offs = max(0, min(offs, self.size - self.perpage)). Python ints, so
the requested offset may be negative. -/
def jumpOffs (size perpage : Nat) (offs : Int) : Int :=
  max 0 (min offs ((size : Int) - (perpage : Int)))

/-- The clamp the spec describes: clamp(x, 0, max(0, length - page_size)).
Stated from the specification text, to be compared with jumpOffs. -/
def clampSpec (size perpage : Nat) (x : Int) : Int :=
  max 0 (min x (max 0 ((size : Int) - (perpage : Int))))

/-- QHexEditor.jump_to_row(row): self.jump(row * self.columns), with
perpage = columns * rows. -/
def jumpToRow (size columns rows : Nat) (row : Int) : Int :=
  jumpOffs size (columns * rows) (row * (columns : Int))

/-- The per-cell key computed in QHexEditor.sel_changed:
(e.row(), (e.column() + self.columns) % (2 * self.columns)). -/
def canonKey (columns : Nat) (p : Nat × Nat) : Nat × Nat :=
  (p.1, (p.2 + columns) % (2 * columns))

/-- The highlight delta of QHexEditor.sel_changed: both selections are
mapped through canonKey; mapped old keys not among the mapped new keys are
reset (to unhighlight), mapped new keys not among the mapped old keys get
the accent (to highlight), keys in both are skipped by the continue. -/
def selDelta (columns : Nat) (old new : List (Nat × Nat)) :
    List (Nat × Nat) × List (Nat × Nat) :=
  let o := old.map (canonKey columns)
  let n := new.map (canonKey columns)
  (o.filter (fun e => !(n.contains e)), n.filter (fun e => !(o.contains e)))

/-- The status offset of QHexEditor.sel_changed:
offs = self.offs + idx.row() * self.columns + idx.column(). -/
def currentOffset (offs columns row col : Nat) : Nat :=
  offs + row * columns + col

/-- C1: after jump(offs) the viewport offset equals
clamp(offs, 0, max(0, size - perpage)); it always lies in that range, and
a request already in the range is returned unchanged (navigation never
fails, it only clamps). -/
theorem jump_clamps (size perpage : Nat) (offs : Int) :
    jumpOffs size perpage offs = clampSpec size perpage offs ∧
    0 ≤ jumpOffs size perpage offs ∧
    jumpOffs size perpage offs ≤ max 0 ((size : Int) - (perpage : Int)) ∧
    (0 ≤ offs → offs ≤ max 0 ((size : Int) - (perpage : Int)) →
      jumpOffs size perpage offs = offs) := by
  unfold jumpOffs clampSpec
  omega

/-- Witness for jump_clamps at size 100, perpage 64, requested offset 20
(in range, hence returned unchanged). -/
theorem jump_clamps_witness :
    jumpOffs 100 64 20 = clampSpec 100 64 20 ∧ jumpOffs 100 64 20 = 20 := by
  have h := jump_clamps 100 64 20
  exact ⟨h.1, h.2.2.2 (by decide) (by decide)⟩

/-- C6 counterexample: with size 100 and page size 64, jump(1000000) does
not land on offset 0. -/
theorem jump_million_ne_zero : jumpOffs 100 64 1000000 ≠ 0 := by decide

/-- C6 amended: with size 100 and page size 64, jump(1000000) clamps to
the maximal valid offset 36 = 100 - 64 (the collapse-to-start case does
not apply since the page size is smaller than the length). -/
theorem jump_million_eq_36 : jumpOffs 100 64 1000000 = 36 := by decide

/-- C7 counterexample: with size 20, columns 16, rows 1, jump_to_row(1)
yields offset 4, which is not a multiple of columns. -/
theorem jumpToRow_not_aligned : ¬ (jumpToRow 20 16 1 1 % 16 = 0) := by
  decide

/-- C7 amended: after jump_to_row(row) the offset is a multiple of columns
unless clamping at the upper bound engaged, in which case it equals
max(0, size - columns * rows), which need not be column-aligned. -/
theorem jumpToRow_aligned_or_clamped (size columns rows : Nat) (row : Int)
    (_hc : 0 < columns) :
    jumpToRow size columns rows row % (columns : Int) = 0 ∨
    jumpToRow size columns rows row =
      max 0 ((size : Int) - (columns : Int) * (rows : Int)) := by
  have hcast : ((columns * rows : Nat) : Int) = (columns : Int) * (rows : Int) := by
    push_cast
    ring
  unfold jumpToRow jumpOffs
  rw [hcast]
  have h3 : max 0 (min (row * (columns : Int)) ((size : Int) - (columns : Int) * (rows : Int))) = 0 ∨
      max 0 (min (row * (columns : Int)) ((size : Int) - (columns : Int) * (rows : Int))) = row * (columns : Int) ∨
      max 0 (min (row * (columns : Int)) ((size : Int) - (columns : Int) * (rows : Int))) =
        max 0 ((size : Int) - (columns : Int) * (rows : Int)) := by
    omega
  rcases h3 with h | h | h
  · left
    rw [h]
    exact Int.zero_emod _
  · left
    rw [h]
    exact Int.mul_emod_left row (columns : Int)
  · right
    exact h

/-- Witness for jumpToRow_aligned_or_clamped at size 20, columns 16,
rows 1, row 1 (the clamped branch). -/
theorem jumpToRow_witness :
    0 < 16 ∧
    (jumpToRow 20 16 1 1 % (16 : Int) = 0 ∨
     jumpToRow 20 16 1 1 = max 0 ((20 : Int) - 16 * 1)) :=
  ⟨by decide, jumpToRow_aligned_or_clamped 20 16 1 1 (by decide)⟩

/-- C4 counterexample: with 16 columns, the key computed for hex-pane cell
(2, 5) differs from the key computed for the text-pane cell (2, 21) of the
same byte: the map exchanges the two panes instead of folding them. -/
theorem canonKey_not_folding :
    ¬ (canonKey 16 (2, 5) = canonKey 16 (2, 5 + 16)) := by decide

/-- C4 amended: the key map sends each hex-pane cell (r, c) to its mirror
(r, c + columns) and the mirror back to (r, c) — an involution exchanging
the panes, so both glyphs of one byte form one orbit rather than one key —
and a cell whose mapped key occurs in both the mapped old and the mapped
new selections is neither unhighlighted nor highlighted. -/
theorem canonKey_swaps_and_overlap_skipped (columns r c : Nat)
    (hc : 0 < columns) (hlt : c < columns) :
    canonKey columns (r, c) = (r, c + columns) ∧
    canonKey columns (r, c + columns) = (r, c) ∧
    (∀ (old new : List (Nat × Nat)) (e : Nat × Nat),
      e ∈ old.map (canonKey columns) → e ∈ new.map (canonKey columns) →
      ¬ e ∈ (selDelta columns old new).1 ∧
      ¬ e ∈ (selDelta columns old new).2) := by
  refine ⟨?_, ?_, ?_⟩
  · unfold canonKey
    simp only [Prod.mk.injEq, true_and]
    exact Nat.mod_eq_of_lt (by omega)
  · unfold canonKey
    simp only [Prod.mk.injEq, true_and]
    have h1 : c + columns + columns = c + 2 * columns := by ring
    rw [h1, Nat.add_mod_right]
    exact Nat.mod_eq_of_lt (by omega)
  · intro old new e ho hn
    unfold selDelta
    simp only [List.mem_filter, Bool.not_eq_true, not_and]
    constructor
    · intro _
      simp [List.elem_eq_mem, hn]
    · intro _
      simp [List.elem_eq_mem, ho]

/-- Witness for canonKey_swaps_and_overlap_skipped at columns 16, cell
(2, 5), with overlapping selections old = [(2,5),(0,0)] and
new = [(2,5),(1,2)] (shared mapped key (2,21) is left untouched). -/
theorem canonKey_witness :
    canonKey 16 (2, 5) = (2, 21) ∧ canonKey 16 (2, 21) = (2, 5) ∧
    (¬ (2, 21) ∈ (selDelta 16 [(2, 5), (0, 0)] [(2, 5), (1, 2)]).1 ∧
     ¬ (2, 21) ∈ (selDelta 16 [(2, 5), (0, 0)] [(2, 5), (1, 2)]).2) := by
  have h := canonKey_swaps_and_overlap_skipped 16 2 5 (by decide) (by decide)
  exact ⟨h.1, h.2.1, h.2.2 [(2, 5), (0, 0)] [(2, 5), (1, 2)] (2, 21)
    (by decide) (by decide)⟩

/-- C8 counterexample: with 16 columns and viewport offset 0, focusing the
text-pane cell (0, 16) reports offset 16, not the pane-relative
0 + 0 * 16 + 16 % 16 = 0 the claim states. -/
theorem currentOffset_not_pane_relative :
    ¬ (currentOffset 0 16 0 16 = 0 + 0 * 16 + 16 % 16) := by decide

/-- C8 amended: the reported offset uses the raw grid column,
offs + row * columns + col; for hex-pane cells this coincides with the
pane-relative formula, but for a text-pane cell it exceeds it by columns,
so the two panes of one byte report offsets differing by columns. -/
theorem currentOffset_raw_column (offs columns row col : Nat)
    (_hc : 0 < columns) :
    currentOffset offs columns row col = offs + row * columns + col ∧
    (col < columns →
      currentOffset offs columns row col =
        offs + row * columns + col % columns) ∧
    (columns ≤ col → col < 2 * columns →
      currentOffset offs columns row col =
        offs + row * columns + col % columns + columns) := by
  refine ⟨rfl, ?_, ?_⟩
  · intro h
    unfold currentOffset
    rw [Nat.mod_eq_of_lt h]
  · intro h1 h2
    unfold currentOffset
    have h3 : col % columns = col - columns := by
      rw [Nat.mod_eq_sub_mod h1]
      exact Nat.mod_eq_of_lt (by omega)
    omega

/-- Witness for currentOffset_raw_column at offset 0, columns 16, focused
cell (0, 16) in the text pane. -/
theorem currentOffset_witness :
    0 < 16 ∧ currentOffset 0 16 0 16 = 0 + 0 * 16 + 16 % 16 + 16 := by
  have h := currentOffset_raw_column 0 16 0 16 (by decide)
  exact ⟨by decide, h.2.2 (by decide) (by decide)⟩

/-- A Python slice of length one: l[a : a+1] = [l[a]] when a is in range. -/
theorem pySlice_single (l : List Nat) (a : Nat) (h : a < l.length) :
    pySlice l a (a + 1) = [l.getD a 0] := by
  unfold pySlice
  rw [List.drop_take]
  have h1 : a + 1 - a = 1 := by omega
  rw [h1, List.take_one, List.head?_drop, List.getElem?_eq_getElem h]
  simp [List.getD_eq_getElem?_getD, List.getElem?_eq_getElem h]

/-- Length of a Python slice l[a:b]. -/
theorem length_pySlice (l : List Nat) (a b : Nat) :
    (pySlice l a b).length = min b l.length - a := by
  unfold pySlice
  simp

/-- Indexing into a Python slice l[a:b] reads l at a + idx. -/
theorem getElem?_pySlice (l : List Nat) (a b idx : Nat)
    (h : idx < (pySlice l a b).length) :
    (pySlice l a b)[idx]? = l[a + idx]? := by
  have hlen : idx < min b l.length - a := by
    rw [← length_pySlice l a b]
    exact h
  unfold pySlice
  rw [List.getElem?_drop, List.getElem?_take]
  have hb : a + idx < b := by omega
  rw [if_pos hb]

/-- The value of a two-digit uppercase hex string read back as a number. -/
def hexVal (s : String) : Nat :=
  s.data.foldl (fun acc ch => acc * 16 + HEXDIGITS.findIdx (fun x => x == ch)) 0

set_option maxRecDepth 8000 in
/-- hex2 is a faithful two-digit uppercase encoding: reading the digits
back through the digit table recovers every byte value. -/
theorem hexVal_hex2 : ∀ x : Fin 256, hexVal (hex2 (x : Nat)) = (x : Nat) := by
  decide

/-- An empty file-system map, for sources opened from raw data only. -/
def fs0 : String → List Nat := fun _ => []

/-- A sample file-system map holding bytes 1, 2, 3 under every name. -/
def fsW : String → List Nat := fun _ => [1, 2, 3]

/-- C3: writing at index 0 on a source opened writable from the immutable
byte string [0x41, 0x42] raises TypeError (the bytearray copy made in
__init__ is bound to the local variable after self.rawdata was assigned,
so rawdata stays immutable bytes), contradicting the claimed round-trip;
had the source been opened from a mutable bytearray, the same write would
succeed and reading [0, 1) back would return the written byte, and on a
read-only source the write raises the read-only ValueError before
touching the data. -/
theorem write_writable_bytes_fails :
    (DataView.init (some (.bytes [0x41, 0x42])) none false).bind
        (fun dv => dv.setItem fs0 0 0x58) =
      .error "TypeError: bytes object does not support item assignment" ∧
    (DataView.init (some (.bytearray [0x41, 0x42])) none false).bind
        (fun dv => (dv.setItem fs0 0 0x58).map
          (fun dv2 => (dv2.getSlice fs0 0 1).2)) =
      .ok [0x58] ∧
    (DataView.init (some (.bytes [0x41, 0x42])) none true).bind
        (fun dv => dv.setItem fs0 0 0x58) =
      .error "ValueError: Readonly flag set!" :=
  ⟨rfl, rfl, rfl⟩

/-- C5: opening with empty raw data and no filename raises the
invalid-argument ValueError even though raw data was provided (the Python
truthiness test not (data or filename) treats an empty byte string like an
absent one); opening with both absent raises the same error. -/
theorem open_empty_data_fails :
    DataView.init (some (.bytes [])) none true =
      .error "ValueError: Raw data or a filename must be provided!" ∧
    DataView.init none none true =
      .error "ValueError: Raw data or a filename must be provided!" :=
  ⟨rfl, rfl⟩

/-- C9: closing a memory-backed DataView whose data property has been
accessed raises AttributeError (the mm attribute is only assigned on the
mapped-file path), while a file-backed view closes cleanly and a second
close of it is a no-op. -/
theorem close_after_access_fails :
    (DataView.init (some (.bytes [97, 98])) none true).bind
        (fun dv => ((dv.dataAccess fs0).1).close) =
      .error "AttributeError: DataView object has no attribute mm" ∧
    (DataView.init none (some "f") true).bind
        (fun dv => (((dv.dataAccess fsW).1).close).bind
          (fun dv2 => dv2.close)) =
      .ok { rawdata := none, filename := some "f", readonly := true,
            dataCache := none, hasMm := true, hasFh := true } :=
  ⟨rfl, rfl⟩

/-- C10: when both raw data and a filename are given, reads are served
from the mapped file bytes: the slice returned by getitem equals the slice
of the file-system contents under that name, whatever the data argument
held. -/
theorem reads_served_from_file (fs : String → List Nat)
    (data : Option PyBuf) (fn : String) (ro : Bool) (a b : Nat)
    (hfn : fn ≠ "") :
    ∀ dv, DataView.init data (some fn) ro = .ok dv →
      (dv.getSlice fs a b).2 = pySlice (fs fn) a b := by
  intro dv heq
  have htr : truthyName (some fn) = true := by
    simp [truthyName, hfn]
  have hinit : DataView.init data (some fn) ro =
      .ok { rawdata := data, filename := some fn, readonly := ro,
            dataCache := none, hasMm := false, hasFh := false } := by
    unfold DataView.init
    rw [htr]
    simp
  rw [hinit] at heq
  injection heq with h2
  subst h2
  unfold DataView.getSlice DataView.dataAccess
  simp [htr]

/-- Witness for reads_served_from_file: data [9, 9] and filename f both
given, slice [0, 2) of the view equals bytes 1, 2 from the file map, the
raw data being ignored. -/
theorem reads_served_from_file_witness :
    (DataView.getSlice fsW
      { rawdata := some (.bytes [9, 9]), filename := some "f",
        readonly := true, dataCache := none, hasMm := false,
        hasFh := false } 0 2).2 =
      pySlice (fsW "f") 0 2 :=
  reads_served_from_file fsW (some (.bytes [9, 9])) "f" true 0 2
    (by decide) _ rfl

/-- C2: in a built frame the cell of logical index idx (row idx / columns,
column idx % columns) is populated iff offs + idx is within the source;
a populated cell holds the byte at offs + idx, its hex text the two-digit
uppercase hexadecimal of that byte (decoding back to it), its char text
the one-glyph code page 437 decoding with the non-printable set replaced
by a space; cells past the data hold nothing. -/
theorem frame_cell_correct (source : List Nat) (offs rows columns idx : Nat)
    (hcols : 0 < columns) (hidx : idx < rows * columns)
    (hbytes : ∀ b ∈ source, b < 256) :
    (((buildFrame source offs rows columns).getD (idx / columns) []).getD
        (idx % columns) none =
      if offs + idx < source.length
      then some (mkCell (source.getD (offs + idx) 0)) else none) ∧
    (∀ c : Cell,
      ((buildFrame source offs rows columns).getD (idx / columns) []).getD
          (idx % columns) none = some c →
      c.byte = source.getD (offs + idx) 0 ∧
      c.hexText = hex2 c.byte ∧ c.hexText.length = 2 ∧
      hexVal c.hexText = c.byte ∧
      c.charText = charTextOf c.byte ∧ c.charText.length = 1) := by
  have hrow : idx / columns < rows := (Nat.div_lt_iff_lt_mul hcols).mpr hidx
  have hcol : idx % columns < columns := Nat.mod_lt _ hcols
  have hmain : ((buildFrame source offs rows columns).getD (idx / columns)
      []).getD (idx % columns) none =
      if offs + idx < source.length
      then some (mkCell (source.getD (offs + idx) 0)) else none := by
    unfold buildFrame buildRow
    simp only [List.getD_eq_getElem?_getD]
    rw [List.getElem?_map, List.getElem?_range hrow]
    simp only [Option.map_some', Option.getD_some]
    rw [List.getElem?_map, List.getElem?_range hcol]
    simp only [Option.map_some', Option.getD_some]
    have hidx2 : idx / columns * columns + idx % columns = idx := by
      rw [Nat.mul_comm]
      exact Nat.div_add_mod idx columns
    rw [hidx2]
    have hlen := length_pySlice source offs (offs + rows * columns)
    by_cases hin : offs + idx < source.length
    · have hdl : idx < (pySlice source offs (offs + rows * columns)).length := by
        rw [hlen]
        omega
      rw [if_pos hdl, if_pos hin,
        getElem?_pySlice source offs (offs + rows * columns) idx hdl]
    · have hdl : ¬ idx < (pySlice source offs (offs + rows * columns)).length := by
        rw [hlen]
        omega
      rw [if_neg hdl, if_neg hin]
  refine ⟨hmain, ?_⟩
  intro c hc
  rw [hmain] at hc
  by_cases hin : offs + idx < source.length
  · rw [if_pos hin] at hc
    injection hc with hc2
    have hb : source.getD (offs + idx) 0 < 256 := by
      rw [List.getD_eq_getElem?_getD, List.getElem?_eq_getElem hin,
        Option.getD_some]
      exact hbytes _ (List.getElem_mem hin)
    subst hc2
    refine ⟨rfl, rfl, ?_, ?_, rfl, ?_⟩
    · unfold mkCell hex2
      rw [String.length_mk]
      rfl
    · exact hexVal_hex2 ⟨source.getD (offs + idx) 0, hb⟩
    · unfold mkCell charTextOf
      rw [String.length_mk]
      rfl
  · rw [if_neg hin] at hc
    cases hc

/-- The 10-byte sample source of the specification, starting with byte
0x41, a line feed and 0xFF. -/
def src10 : List Nat := [0x41, 0x0A, 0xFF, 0x00, 0x07, 0x30, 0x61, 0x80, 0xFE, 0x20]

/-- Witness for frame_cell_correct on the 10-byte source with page size
4 * 16 = 64: cell 0 shows 41 and A, cell 1 (line feed) shows a space,
cell 2 (0xFF) shows one glyph, cell 10 is empty, and the frame holds
exactly 10 populated and 54 empty cells. -/
theorem frame_cell_witness :
    (((buildFrame src10 0 4 16).getD (0 / 16) []).getD (0 % 16) none =
      if 0 + 0 < src10.length
      then some (mkCell (src10.getD (0 + 0) 0)) else none) ∧
    ((buildFrame src10 0 4 16).getD 0 []).getD 0 none =
      some { byte := 0x41, hexText := "41", charText := "A" } ∧
    ((buildFrame src10 0 4 16).getD 0 []).getD 1 none =
      some { byte := 0x0A, hexText := "0A", charText := " " } ∧
    (mkCell 0xFF).charText.length = 1 ∧
    ((buildFrame src10 0 4 16).getD 0 []).getD 10 none = none ∧
    ((buildFrame src10 0 4 16).map
      (fun r => (r.filter (fun o => o.isSome)).length)).sum = 10 ∧
    ((buildFrame src10 0 4 16).map
      (fun r => (r.filter (fun o => !o.isSome)).length)).sum = 54 := by
  refine ⟨(frame_cell_correct src10 0 4 16 0 (by decide) (by decide)
    (by decide)).1, ?_, ?_, ?_, ?_, ?_, ?_⟩
  · decide
  · decide
  · decide
  · decide
  · decide
  · decide

end LibQtHexEd
